import Mathlib

/-!
Verification of the host-side indirect-call bridge `call_callback_by_name`
(`src/product-mini/platforms/linux` callback shim of the `callback` repository).

The bridge is a thin orchestrator over the WAMR runtime primitives
`wasm_runtime_create_exec_env`, `wasm_runtime_lookup_function`,
`wasm_runtime_call_wasm`, `wasm_runtime_call_indirect`,
`wasm_runtime_get_exception` and `wasm_runtime_destroy_exec_env`.
Those primitives belong to the external engine, so they are embedded as an
abstract record of functions (`WamrRuntime`); the bridge itself is embedded
line by line from the C source as a pure function that returns its boolean
result together with a trace of every engine call and every printf it
performed.  A second, state-threading embedding (`WamrRuntimeSt`,
`call_callback_by_name_st`) is used for the claims about determinism and
about non-mutation of guest state, where the engine may carry hidden state.
-/

set_option autoImplicit false

namespace Callback

/-- One observable action performed by the bridge: an engine primitive call
or a printf.  The payloads record exactly the values the C code passes. -/
inductive Event where
  | createEnv (moduleInst stackSize : Nat)
  | destroyEnv (execEnv : Nat)
  | lookupFunc (moduleInst : Nat) (name : String)
  | callWasm (execEnv funcInst argc : Nat) (buf : List Nat)
  | callIndirect (execEnv elemIdx argc : Nat) (argv : List Nat)
  | printMsg (msg : String)
  deriving DecidableEq

/-- The external WAMR engine primitives the shim consumes, as pure functions.
Handles (module instances, exec envs, function instances) are opaque and
modelled as naturals; `uint32` values are naturals produced by the engine. -/
structure WamrRuntime where
  /-- `wasm_runtime_create_exec_env(module_inst, stack_size)`: `NULL` is `none`. -/
  createExecEnv : Nat → Nat → Option Nat
  /-- `wasm_runtime_lookup_function(module_inst, name)`: `NULL` is `none`. -/
  lookupFunction : Nat → String → Option Nat
  /-- `wasm_runtime_call_wasm(exec_env, func, argc, argv)`: the `argv` buffer is
  passed in and the (possibly rewritten) buffer is returned with the flag. -/
  callWasm : Nat → Nat → Nat → List Nat → Bool × List Nat
  /-- `wasm_runtime_call_indirect(exec_env, elem_idx, argc, argv)`. -/
  callIndirect : Nat → Nat → Nat → List Nat → Bool
  /-- `wasm_runtime_get_exception(module_inst)`. -/
  getException : Nat → String

/-- Shallow embedding of `call_callback_by_name` from the C source.  Returns
the boolean the C function returns, paired with the trace of engine calls and
prints in program order.  The C buffer `uint32 results[1]` initialised to
zero is the one-slot list `[0]`; reading `results[0]` after the call is
`headD 0` of the buffer the engine returned.  The quotation marks the C
format strings put around the word addr are dropped from the message
literals; the text is otherwise verbatim. -/
def call_callback_by_name (rt : WamrRuntime) (module_inst stack_size arg : Nat) :
    Bool × List Event :=
  match rt.createExecEnv module_inst stack_size with
  | none =>
      (false,
       [Event.createEnv module_inst stack_size,
        Event.printMsg "Failed to create exec env"])
  | some exec_env =>
    match rt.lookupFunction module_inst "addr" with
    | none =>
        (false,
         [Event.createEnv module_inst stack_size,
          Event.lookupFunc module_inst "addr",
          Event.printMsg "Failed to find addr.",
          Event.destroyEnv exec_env])
    | some addr_func =>
      let callRes := rt.callWasm exec_env addr_func 0 [0]
      if callRes.1 = false then
        (false,
         [Event.createEnv module_inst stack_size,
          Event.lookupFunc module_inst "addr",
          Event.callWasm exec_env addr_func 0 [0],
          Event.printMsg ("Failed to invoke addr: " ++ rt.getException module_inst),
          Event.destroyEnv exec_env])
      else
        let func_index := callRes.2.headD 0
        if rt.callIndirect exec_env func_index 1 [arg] = false then
          (false,
           [Event.createEnv module_inst stack_size,
            Event.lookupFunc module_inst "addr",
            Event.callWasm exec_env addr_func 0 [0],
            Event.printMsg ("Got function index from Wasm: " ++ toString func_index),
            Event.callIndirect exec_env func_index 1 [arg],
            Event.printMsg ("Indirect call failed: " ++ rt.getException module_inst),
            Event.destroyEnv exec_env])
        else
          (true,
           [Event.createEnv module_inst stack_size,
            Event.lookupFunc module_inst "addr",
            Event.callWasm exec_env addr_func 0 [0],
            Event.printMsg ("Got function index from Wasm: " ++ toString func_index),
            Event.callIndirect exec_env func_index 1 [arg],
            Event.printMsg "indirect call succeeded.",
            Event.destroyEnv exec_env])

/-- Is this event a `wasm_runtime_destroy_exec_env` call? -/
def Event.isDestroy : Event → Bool
  | Event.destroyEnv _ => true
  | _ => false

/-- Is this event a `wasm_runtime_call_indirect` call? -/
def Event.isIndirect : Event → Bool
  | Event.callIndirect _ _ _ _ => true
  | _ => false

/-- Is this event a `wasm_runtime_call_wasm` call? -/
def Event.isCallWasm : Event → Bool
  | Event.callWasm _ _ _ _ => true
  | _ => false

/-- Is this event a `wasm_runtime_lookup_function` call? -/
def Event.isLookup : Event → Bool
  | Event.lookupFunc _ _ => true
  | _ => false

/-- Number of `destroy_exec_env` calls in a trace. -/
def destroyCount (t : List Event) : Nat := (t.filter Event.isDestroy).length

/-- Number of indirect calls in a trace. -/
def indirectCount (t : List Event) : Nat := (t.filter Event.isIndirect).length

/-- An engine on which every stage succeeds: the exec env is handle 7, the
export table maps only `"addr"` to handle 3, calling it writes the single
result `1` (mirroring `func.c`, whose `addr` returns table index 1), and the
indirect call at any index succeeds. -/
def rtOk : WamrRuntime where
  createExecEnv := fun _ _ => some 7
  lookupFunction := fun _ n => if n = "addr" then some 3 else none
  callWasm := fun _ _ _ _ => (true, [1])
  callIndirect := fun _ _ _ _ => true
  getException := fun _ => ""

/-- An engine whose module instance has no `"addr"` export. -/
def rtNoAddr : WamrRuntime where
  createExecEnv := fun _ _ => some 7
  lookupFunction := fun _ _ => none
  callWasm := fun _ _ _ _ => (true, [1])
  callIndirect := fun _ _ _ _ => true
  getException := fun _ => ""

/-- An engine on which exec-env creation fails. -/
def rtNoEnv : WamrRuntime where
  createExecEnv := fun _ _ => none
  lookupFunction := fun _ n => if n = "addr" then some 3 else none
  callWasm := fun _ _ _ _ => (true, [1])
  callIndirect := fun _ _ _ _ => true
  getException := fun _ => ""

/-- The engine primitives again, now threading a hidden engine/guest state of
type `σ`: each primitive returns its value together with the successor state.
This is the embedding used for the determinism and frame claims, where the
pure-function model would assume away exactly what is to be proved. -/
structure WamrRuntimeSt (σ : Type) where
  createExecEnv : σ → Nat → Nat → Option Nat × σ
  lookupFunction : σ → Nat → String → Option Nat × σ
  callWasm : σ → Nat → Nat → Nat → List Nat → (Bool × List Nat) × σ
  callIndirect : σ → Nat → Nat → Nat → List Nat → Bool × σ
  getException : σ → Nat → String × σ
  destroyExecEnv : σ → Nat → σ

/-- Shallow embedding of `call_callback_by_name`, threading the engine state
through the primitives in exactly the order the C source calls them,
including `wasm_runtime_get_exception` in the two printf branches that use it
and `wasm_runtime_destroy_exec_env` on every exit path after acquisition. -/
def call_callback_by_name_st {σ : Type} (rt : WamrRuntimeSt σ) (s0 : σ)
    (module_inst stack_size arg : Nat) : Bool × σ :=
  let c := rt.createExecEnv s0 module_inst stack_size
  match c.1 with
  | none => (false, c.2)
  | some exec_env =>
    let l := rt.lookupFunction c.2 module_inst "addr"
    match l.1 with
    | none => (false, rt.destroyExecEnv l.2 exec_env)
    | some addr_func =>
      let w := rt.callWasm l.2 exec_env addr_func 0 [0]
      if w.1.1 = false then
        let ex := rt.getException w.2 module_inst
        (false, rt.destroyExecEnv ex.2 exec_env)
      else
        let func_index := w.1.2.headD 0
        let i := rt.callIndirect w.2 exec_env func_index 1 [arg]
        if i.1 = false then
          let ex := rt.getException i.2 module_inst
          (false, rt.destroyExecEnv ex.2 exec_env)
        else
          (true, rt.destroyExecEnv i.2 exec_env)

/-- The hidden state does not influence the value any primitive returns:
none of the four verdicts the bridge consults — context creation, resolver
lookup, the resolver call, and the indirect call — depends on guest mutable
state.  Note this is strictly stronger than the spec's assumption that no
guest-side mutable state affects the resolver export alone: with only a
state-independent resolver, the indirect call's own verdict may still change
between invocations (see `rtPoison`), so the stronger assumption is what the
idempotence property actually needs. -/
def StateOblivious {σ : Type} (rt : WamrRuntimeSt σ) : Prop :=
  (∀ s t mi ss, (rt.createExecEnv s mi ss).1 = (rt.createExecEnv t mi ss).1) ∧
  (∀ s t mi n, (rt.lookupFunction s mi n).1 = (rt.lookupFunction t mi n).1) ∧
  (∀ s t e f c a, (rt.callWasm s e f c a).1 = (rt.callWasm t e f c a).1) ∧
  (∀ s t e i c a, (rt.callIndirect s e i c a).1 = (rt.callIndirect t e i c a).1)

/-- Projection `g` of the engine state (read it as "the module instance, its
table and its exports") is untouched by every primitive the bridge calls:
lookup is a pure read, exec-env creation/destruction touch only the context,
and the guest calls mutate at most what `g` does not observe. -/
def PreservesProj {σ γ : Type} (rt : WamrRuntimeSt σ) (g : σ → γ) : Prop :=
  (∀ s mi ss, g (rt.createExecEnv s mi ss).2 = g s) ∧
  (∀ s mi n, g (rt.lookupFunction s mi n).2 = g s) ∧
  (∀ s e f c a, g (rt.callWasm s e f c a).2 = g s) ∧
  (∀ s e i c a, g (rt.callIndirect s e i c a).2 = g s) ∧
  (∀ s mi, g (rt.getException s mi).2 = g s) ∧
  (∀ s e, g (rt.destroyExecEnv s e) = g s)

/-- A stateful engine whose primitives all succeed and ignore the state. -/
def rtStOk : WamrRuntimeSt Nat where
  createExecEnv := fun s _ _ => (some 7, s)
  lookupFunction := fun s _ n => (if n = "addr" then some 3 else none, s)
  callWasm := fun s _ _ _ _ => ((true, [1]), s)
  callIndirect := fun s _ _ _ _ => (true, s)
  getException := fun s _ => ("", s)
  destroyExecEnv := fun s _ => s

/-- A stateful engine whose resolver is completely state-independent —
context creation, export lookup and the resolver call neither read nor write
the guest state, so no guest-side mutable state affects the resolver export —
but whose guest callback poisons the state: the indirect call succeeds
exactly when the poison flag is still clear and sets it.  The first
invocation therefore succeeds and the second fails. -/
def rtPoison : WamrRuntimeSt Bool where
  createExecEnv := fun s _ _ => (some 7, s)
  lookupFunction := fun s _ n => (if n = "addr" then some 3 else none, s)
  callWasm := fun s _ _ _ _ => ((true, [1]), s)
  callIndirect := fun s _ _ _ _ => (!s, true)
  getException := fun s _ => ("", s)
  destroyExecEnv := fun s _ => s

/-- Claim C1: for every invocation of `call_callback_by_name` in which the
execution context is successfully acquired, the context is released exactly
once before the function returns, on every exit path — the success path and
each failure path (export lookup failure, extraction-call failure,
indirect-call failure); no path leaks the context and none releases it twice:
the destroy events of the trace are exactly `[destroyEnv e]`. -/
theorem context_released_exactly_once (rt : WamrRuntime) (mi ss arg e : Nat)
    (hc : rt.createExecEnv mi ss = some e) :
    (call_callback_by_name rt mi ss arg).2.filter Event.isDestroy
      = [Event.destroyEnv e] := by
  simp only [call_callback_by_name, hc]
  cases hl : rt.lookupFunction mi "addr" with
  | none => simp [Event.isDestroy]
  | some f =>
    by_cases hw : (rt.callWasm e f 0 [0]).1 = false
    · simp [hw, Event.isDestroy]
    · by_cases hi : rt.callIndirect e ((rt.callWasm e f 0 [0]).2.headD 0) 1 [arg] = false
      · rw [List.headD_eq_head?] at hi
        simp [hw, hi, Event.isDestroy]
      · rw [List.headD_eq_head?] at hi
        simp [hw, hi, Event.isDestroy]

/-- Witness for C1 on a concrete engine: acquisition yields env 7 and the
trace destroys exactly env 7. -/
theorem context_released_exactly_once_witness :
    rtOk.createExecEnv 1 8192 = some 7 ∧
    (call_callback_by_name rtOk 1 8192 42).2.filter Event.isDestroy
      = [Event.destroyEnv 7] :=
  ⟨rfl, context_released_exactly_once rtOk 1 8192 42 7 rfl⟩

/-- Claim C2: `call_callback_by_name` returns `false` whenever any stage
fails (context creation, export lookup, extraction call, or indirect call),
and returns `true` only if the full resolve-extract-invoke sequence succeeds:
the boolean result is `true` exactly when an exec env and an `"addr"` handle
were obtained, the extraction call succeeded, and the indirect call at the
extracted index succeeded. -/
theorem result_true_iff_all_stages_succeed (rt : WamrRuntime) (mi ss arg : Nat) :
    (call_callback_by_name rt mi ss arg).1 = true ↔
      ∃ e f, rt.createExecEnv mi ss = some e ∧
        rt.lookupFunction mi "addr" = some f ∧
        (rt.callWasm e f 0 [0]).1 = true ∧
        rt.callIndirect e ((rt.callWasm e f 0 [0]).2.headD 0) 1 [arg] = true := by
  cases hc : rt.createExecEnv mi ss with
  | none => simp [call_callback_by_name, hc]
  | some e =>
    cases hl : rt.lookupFunction mi "addr" with
    | none => simp [call_callback_by_name, hc, hl]
    | some f =>
      by_cases hw : (rt.callWasm e f 0 [0]).1 = false
      · simp [call_callback_by_name, hc, hl, hw]
      · by_cases hi : rt.callIndirect e ((rt.callWasm e f 0 [0]).2.headD 0) 1 [arg] = false
        · rw [List.headD_eq_head?] at hi
          simp [call_callback_by_name, hc, hl, hw, hi]
        · rw [List.headD_eq_head?] at hi
          simp only [Bool.not_eq_false] at hw hi
          simp [call_callback_by_name, hc, hl, hw, hi, List.headD_eq_head?]

/-- Claim C4: for every module instance lacking an `"addr"` export,
`call_callback_by_name` returns `false`, performs zero indirect calls, and
the context-creation/destruction counts balance: one destroy if the env was
acquired, zero otherwise. -/
theorem no_addr_export_fails_cleanly (rt : WamrRuntime) (mi ss arg : Nat)
    (hl : rt.lookupFunction mi "addr" = none) :
    (call_callback_by_name rt mi ss arg).1 = false ∧
    indirectCount (call_callback_by_name rt mi ss arg).2 = 0 ∧
    destroyCount (call_callback_by_name rt mi ss arg).2
      = (if (rt.createExecEnv mi ss).isSome then 1 else 0) := by
  cases hc : rt.createExecEnv mi ss with
  | none =>
      simp [call_callback_by_name, hc, indirectCount, destroyCount,
        Event.isIndirect, Event.isDestroy]
  | some e =>
      simp [call_callback_by_name, hc, hl, indirectCount, destroyCount,
        Event.isIndirect, Event.isDestroy]

/-- Witness for C4 on a concrete engine with no `"addr"` export. -/
theorem no_addr_export_fails_cleanly_witness :
    rtNoAddr.lookupFunction 1 "addr" = none ∧
    ((call_callback_by_name rtNoAddr 1 8192 42).1 = false ∧
     indirectCount (call_callback_by_name rtNoAddr 1 8192 42).2 = 0 ∧
     destroyCount (call_callback_by_name rtNoAddr 1 8192 42).2
       = (if (rtNoAddr.createExecEnv 1 8192).isSome then 1 else 0)) :=
  ⟨rfl, no_addr_export_fails_cleanly rtNoAddr 1 8192 42 rfl⟩

/-- Claim C7: if context creation fails at step 1, `call_callback_by_name`
reports and returns failure with nothing further attempted: the whole trace
is the failed creation attempt and the report, so no export lookup, no
extraction call and no indirect call occur. -/
theorem create_failure_attempts_nothing_further (rt : WamrRuntime)
    (mi ss arg : Nat) (hc : rt.createExecEnv mi ss = none) :
    call_callback_by_name rt mi ss arg
      = (false, [Event.createEnv mi ss,
                 Event.printMsg "Failed to create exec env"]) := by
  simp [call_callback_by_name, hc]

/-- Witness for C7 on a concrete engine whose exec-env creation fails. -/
theorem create_failure_attempts_nothing_further_witness :
    rtNoEnv.createExecEnv 1 8192 = none ∧
    call_callback_by_name rtNoEnv 1 8192 42
      = (false, [Event.createEnv 1 8192,
                 Event.printMsg "Failed to create exec env"]) :=
  ⟨rfl, create_failure_attempts_nothing_further rtNoEnv 1 8192 42 rfl⟩

/-- Claim C3: for every module instance whose `"addr"` export resolves and,
called with zero arguments, returns the table index of an export the engine
accepts for the indirect call, `call_callback_by_name` returns `true` and the
indirect call at that index runs with the caller-supplied argument exactly
once (the trace holds exactly one indirect-call event and its argv is
`[arg]`). -/
theorem addr_module_success_invokes_once (rt : WamrRuntime)
    (mi ss arg e f : Nat) (res : List Nat)
    (hc : rt.createExecEnv mi ss = some e)
    (hl : rt.lookupFunction mi "addr" = some f)
    (hw : rt.callWasm e f 0 [0] = (true, res))
    (hi : rt.callIndirect e (res.headD 0) 1 [arg] = true) :
    (call_callback_by_name rt mi ss arg).1 = true ∧
    (call_callback_by_name rt mi ss arg).2.filter Event.isIndirect
      = [Event.callIndirect e (res.headD 0) 1 [arg]] := by
  rw [List.headD_eq_head?] at hi ⊢
  simp [call_callback_by_name, hc, hl, hw, hi, Event.isIndirect,
    List.headD_eq_head?]

/-- Witness for C3: on `rtOk` (the `func.c` scenario, `addr` returning table
index 1) the call returns `true` and the single indirect call carries 42. -/
theorem addr_module_success_invokes_once_witness :
    rtOk.createExecEnv 1 8192 = some 7 ∧
    rtOk.lookupFunction 1 "addr" = some 3 ∧
    rtOk.callWasm 7 3 0 [0] = (true, [1]) ∧
    rtOk.callIndirect 7 (([1] : List Nat).headD 0) 1 [42] = true ∧
    ((call_callback_by_name rtOk 1 8192 42).1 = true ∧
     (call_callback_by_name rtOk 1 8192 42).2.filter Event.isIndirect
       = [Event.callIndirect 7 (([1] : List Nat).headD 0) 1 [42]]) :=
  ⟨rfl, by decide, rfl, rfl,
   addr_module_success_invokes_once rtOk 1 8192 42 7 3 [1] rfl (by decide) rfl rfl⟩

/-- Claim C5: once the context is acquired and `"addr"` is resolved, the
extraction stage calls the resolved export inside that context with zero
arguments and exactly one 32-bit result slot (the buffer `[0]`), and it is
the only `call_wasm` the bridge performs; if the engine reports failure, the
invocation fails and the report carries the guest diagnostic obtained from
`wasm_runtime_get_exception`. -/
theorem extraction_call_shape_and_diagnostic (rt : WamrRuntime)
    (mi ss arg e f : Nat)
    (hc : rt.createExecEnv mi ss = some e)
    (hl : rt.lookupFunction mi "addr" = some f) :
    (call_callback_by_name rt mi ss arg).2.filter Event.isCallWasm
      = [Event.callWasm e f 0 [0]] ∧
    ((rt.callWasm e f 0 [0]).1 = false →
      (call_callback_by_name rt mi ss arg).1 = false ∧
      Event.printMsg ("Failed to invoke addr: " ++ rt.getException mi)
        ∈ (call_callback_by_name rt mi ss arg).2) := by
  by_cases hw : (rt.callWasm e f 0 [0]).1 = false
  · simp [call_callback_by_name, hc, hl, hw, Event.isCallWasm]
  · by_cases hi : rt.callIndirect e ((rt.callWasm e f 0 [0]).2.headD 0) 1 [arg] = false
    · rw [List.headD_eq_head?] at hi
      simp [call_callback_by_name, hc, hl, hw, hi, Event.isCallWasm]
    · rw [List.headD_eq_head?] at hi
      simp [call_callback_by_name, hc, hl, hw, hi, Event.isCallWasm]

/-- Witness for C5 on a concrete engine (success side: the single extraction
call is recorded with zero arguments and the one-slot buffer). -/
theorem extraction_call_shape_and_diagnostic_witness :
    rtOk.createExecEnv 1 8192 = some 7 ∧
    rtOk.lookupFunction 1 "addr" = some 3 ∧
    ((call_callback_by_name rtOk 1 8192 42).2.filter Event.isCallWasm
       = [Event.callWasm 7 3 0 [0]] ∧
     ((rtOk.callWasm 7 3 0 [0]).1 = false →
       (call_callback_by_name rtOk 1 8192 42).1 = false ∧
       Event.printMsg ("Failed to invoke addr: " ++ rtOk.getException 1)
         ∈ (call_callback_by_name rtOk 1 8192 42).2)) :=
  ⟨rfl, by decide,
   extraction_call_shape_and_diagnostic rtOk 1 8192 42 7 3 rfl (by decide)⟩

/-- Claim C6: once extraction succeeds, the bridge performs exactly one
indirect call, through the engine primitive, at exactly the extracted index
with the single 32-bit argument `[arg]` — whatever the index is, so the host
adds no validation of its own — and an engine rejection or trap of that call
is surfaced as the structured return `false` rather than anything else. -/
theorem indirect_call_once_and_failure_surfaced (rt : WamrRuntime)
    (mi ss arg e f : Nat) (res : List Nat)
    (hc : rt.createExecEnv mi ss = some e)
    (hl : rt.lookupFunction mi "addr" = some f)
    (hw : rt.callWasm e f 0 [0] = (true, res)) :
    (call_callback_by_name rt mi ss arg).2.filter Event.isIndirect
      = [Event.callIndirect e (res.headD 0) 1 [arg]] ∧
    (rt.callIndirect e (res.headD 0) 1 [arg] = false →
      (call_callback_by_name rt mi ss arg).1 = false) := by
  rw [List.headD_eq_head?]
  by_cases hi : rt.callIndirect e (res.headD 0) 1 [arg] = false
  · rw [List.headD_eq_head?] at hi
    simp [call_callback_by_name, hc, hl, hw, hi, Event.isIndirect,
      List.headD_eq_head?]
  · rw [List.headD_eq_head?] at hi
    simp [call_callback_by_name, hc, hl, hw, hi, Event.isIndirect,
      List.headD_eq_head?]

/-- Witness for C6 on a concrete engine: the one indirect call is at the
extracted index 1 with argv `[42]`. -/
theorem indirect_call_once_and_failure_surfaced_witness :
    rtOk.createExecEnv 1 8192 = some 7 ∧
    rtOk.lookupFunction 1 "addr" = some 3 ∧
    rtOk.callWasm 7 3 0 [0] = (true, [1]) ∧
    ((call_callback_by_name rtOk 1 8192 42).2.filter Event.isIndirect
       = [Event.callIndirect 7 (([1] : List Nat).headD 0) 1 [42]] ∧
     (rtOk.callIndirect 7 (([1] : List Nat).headD 0) 1 [42] = false →
       (call_callback_by_name rtOk 1 8192 42).1 = false)) :=
  ⟨rfl, by decide, rfl,
   indirect_call_once_and_failure_surfaced rtOk 1 8192 42 7 3 [1] rfl (by decide) rfl⟩

/-- Claim C10: the values crossing the bridge are passed through unmodified —
the stack size handed to `create_exec_env` is exactly the caller's
`stack_size` (the trace starts with `createEnv mi ss`), and when extraction
yields the single result `v`, the indirect call is at exactly `v` with
exactly the caller-supplied argument: no masking, offset or translation. -/
theorem values_passed_through_unmodified (rt : WamrRuntime)
    (mi ss arg e f v : Nat)
    (hc : rt.createExecEnv mi ss = some e)
    (hl : rt.lookupFunction mi "addr" = some f)
    (hw : rt.callWasm e f 0 [0] = (true, [v])) :
    (call_callback_by_name rt mi ss arg).2.head? = some (Event.createEnv mi ss) ∧
    (call_callback_by_name rt mi ss arg).2.filter Event.isIndirect
      = [Event.callIndirect e v 1 [arg]] := by
  by_cases hi : rt.callIndirect e v 1 [arg] = false
  · simp [call_callback_by_name, hc, hl, hw, hi, Event.isIndirect,
      List.headD_eq_head?]
  · simp [call_callback_by_name, hc, hl, hw, hi, Event.isIndirect,
      List.headD_eq_head?]

/-- Witness for C10: with extraction result 1, the indirect call is at index
1 with argv `[42]`, and the exec env was created with stack size 8192. -/
theorem values_passed_through_unmodified_witness :
    rtOk.createExecEnv 1 8192 = some 7 ∧
    rtOk.lookupFunction 1 "addr" = some 3 ∧
    rtOk.callWasm 7 3 0 [0] = (true, [1]) ∧
    ((call_callback_by_name rtOk 1 8192 42).2.head?
       = some (Event.createEnv 1 8192) ∧
     (call_callback_by_name rtOk 1 8192 42).2.filter Event.isIndirect
       = [Event.callIndirect 7 1 1 [42]]) :=
  ⟨rfl, by decide, rfl,
   values_passed_through_unmodified rtOk 1 8192 42 7 3 1 rfl (by decide) rfl⟩

/-- The boolean outcome of the bridge does not depend on the initial engine
state when every primitive's returned value is state-independent. -/
theorem outcome_ignores_initial_state {σ : Type} (rt : WamrRuntimeSt σ)
    (hob : StateOblivious rt) (mi ss arg : Nat) (s t : σ) :
    (call_callback_by_name_st rt s mi ss arg).1
      = (call_callback_by_name_st rt t mi ss arg).1 := by
  obtain ⟨hcv, hlv, hwv, hiv⟩ := hob
  simp only [call_callback_by_name_st]
  cases h1 : (rt.createExecEnv s mi ss).1 with
  | none =>
    have h1t : (rt.createExecEnv t mi ss).1 = none := (hcv t s mi ss).trans h1
    simp [h1, h1t]
  | some e =>
    have h1t : (rt.createExecEnv t mi ss).1 = some e := (hcv t s mi ss).trans h1
    cases h2 : (rt.lookupFunction (rt.createExecEnv s mi ss).2 mi "addr").1 with
    | none =>
      have h2t : (rt.lookupFunction (rt.createExecEnv t mi ss).2 mi "addr").1 = none :=
        (hlv (rt.createExecEnv t mi ss).2 (rt.createExecEnv s mi ss).2 mi "addr").trans h2
      simp [h1, h1t, h2, h2t]
    | some f =>
      have h2t : (rt.lookupFunction (rt.createExecEnv t mi ss).2 mi "addr").1 = some f :=
        (hlv (rt.createExecEnv t mi ss).2 (rt.createExecEnv s mi ss).2 mi "addr").trans h2
      have h3 := hwv (rt.lookupFunction (rt.createExecEnv t mi ss).2 mi "addr").2
        (rt.lookupFunction (rt.createExecEnv s mi ss).2 mi "addr").2 e f 0 [0]
      have h4 := hiv
        (rt.callWasm (rt.lookupFunction (rt.createExecEnv t mi ss).2 mi "addr").2 e f 0 [0]).2
        (rt.callWasm (rt.lookupFunction (rt.createExecEnv s mi ss).2 mi "addr").2 e f 0 [0]).2
        e ((rt.callWasm
          (rt.lookupFunction (rt.createExecEnv s mi ss).2 mi "addr").2 e f 0 [0]).1.2.headD 0)
        1 [arg]
      by_cases hb : (rt.callWasm
          (rt.lookupFunction (rt.createExecEnv s mi ss).2 mi "addr").2 e f 0 [0]).1.1
          = false
      · simp [h1, h1t, h2, h2t, h3, hb]
      · by_cases hib : (rt.callIndirect
            (rt.callWasm
              (rt.lookupFunction (rt.createExecEnv s mi ss).2 mi "addr").2 e f 0 [0]).2
            e ((rt.callWasm
              (rt.lookupFunction (rt.createExecEnv s mi ss).2 mi "addr").2 e f 0 [0]).1.2.headD 0)
            1 [arg]).1 = false
        · rw [List.headD_eq_head?] at h4 hib
          simp [h1, h1t, h2, h2t, h3, h4, hb, hib]
        · rw [List.headD_eq_head?] at h4 hib
          simp [h1, h1t, h2, h2t, h3, h4, hb, hib]

/-- Claim C8, counterexample to the claim as stated: on `rtPoison` the
resolver export is unaffected by guest mutable state — context creation,
lookup and the resolver call all return values independent of the state, so
the claim's assumption holds — yet two independent invocations with the same
module instance and argument disagree: the first returns `true` and the
second, run from the state the first left behind, returns `false`, because
the indirect call's own verdict depends on state the guest callback mutates. -/
theorem resolver_only_assumption_insufficient :
    (∀ s t mi ss, (rtPoison.createExecEnv s mi ss).1
       = (rtPoison.createExecEnv t mi ss).1) ∧
    (∀ s t mi n, (rtPoison.lookupFunction s mi n).1
       = (rtPoison.lookupFunction t mi n).1) ∧
    (∀ s t e f c a, (rtPoison.callWasm s e f c a).1
       = (rtPoison.callWasm t e f c a).1) ∧
    (call_callback_by_name_st rtPoison false 1 8192 42).1 = true ∧
    (call_callback_by_name_st rtPoison
        (call_callback_by_name_st rtPoison false 1 8192 42).2 1 8192 42).1
      = false :=
  ⟨fun _ _ _ _ => rfl, fun _ _ _ _ => rfl, fun _ _ _ _ _ _ => rfl,
   by decide, by decide⟩

/-- Claim C8, amended: the claim's resolver-only assumption does not suffice
(the indirect call's verdict may itself depend on guest mutable state), so
the assumption is strengthened to every consulted verdict.  Two independent
invocations of `call_callback_by_name` with the same module instance and the
same argument produce the same success/failure outcome, assuming no
guest-side mutable state affects any engine verdict the bridge consults —
context creation, resolver lookup, the resolver call, and the indirect call
(`StateOblivious`): the second invocation, run from the state the first one
left behind, returns the same boolean as the first. -/
theorem repeat_invocation_same_outcome {σ : Type} (rt : WamrRuntimeSt σ)
    (hob : StateOblivious rt) (mi ss arg : Nat) (s0 : σ) :
    (call_callback_by_name_st rt
        (call_callback_by_name_st rt s0 mi ss arg).2 mi ss arg).1
      = (call_callback_by_name_st rt s0 mi ss arg).1 :=
  outcome_ignores_initial_state rt hob mi ss arg
    (call_callback_by_name_st rt s0 mi ss arg).2 s0

/-- Witness for C8 on a concrete state-oblivious engine. -/
theorem repeat_invocation_same_outcome_witness :
    StateOblivious rtStOk ∧
    (call_callback_by_name_st rtStOk
        (call_callback_by_name_st rtStOk 0 1 8192 42).2 1 8192 42).1
      = (call_callback_by_name_st rtStOk 0 1 8192 42).1 :=
  ⟨⟨fun _ _ _ _ => rfl, fun _ _ _ _ => rfl, fun _ _ _ _ _ _ => rfl,
    fun _ _ _ _ _ _ => rfl⟩,
   repeat_invocation_same_outcome rtStOk
     ⟨fun _ _ _ _ => rfl, fun _ _ _ _ => rfl, fun _ _ _ _ _ _ => rfl,
      fun _ _ _ _ _ _ => rfl⟩ 1 8192 42 0⟩

/-- Claim C9: `call_callback_by_name` never mutates the module instance or
its table/exports — the only resource the bridge itself creates and mutates
is the per-call execution context.  Formally: any projection `g` of the
engine state (the guest structures) that each consumed primitive leaves
unchanged is unchanged by the whole bridge invocation, on every path; the
bridge adds no mutation of its own. -/
theorem guest_structures_unchanged {σ γ : Type} (rt : WamrRuntimeSt σ)
    (g : σ → γ) (hp : PreservesProj rt g) (mi ss arg : Nat) (s : σ) :
    g (call_callback_by_name_st rt s mi ss arg).2 = g s := by
  obtain ⟨hgc, hgl, hgw, hgi, hge, hgd⟩ := hp
  simp only [call_callback_by_name_st]
  cases h1 : (rt.createExecEnv s mi ss).1 with
  | none => simp [hgc]
  | some e =>
    cases h2 : (rt.lookupFunction (rt.createExecEnv s mi ss).2 mi "addr").1 with
    | none => simp [hgd, hgl, hgc]
    | some f =>
      by_cases hb : (rt.callWasm
          (rt.lookupFunction (rt.createExecEnv s mi ss).2 mi "addr").2 e f 0 [0]).1.1
          = false
      · simp [hb, hgd, hge, hgw, hgl, hgc]
      · by_cases hib : (rt.callIndirect
            (rt.callWasm
              (rt.lookupFunction (rt.createExecEnv s mi ss).2 mi "addr").2 e f 0 [0]).2
            e ((rt.callWasm
              (rt.lookupFunction (rt.createExecEnv s mi ss).2 mi "addr").2 e f 0 [0]).1.2.headD 0)
            1 [arg]).1 = false
        · rw [List.headD_eq_head?] at hib
          simp [hb, hib, hgd, hge, hgi, hgw, hgl, hgc]
        · rw [List.headD_eq_head?] at hib
          simp [hb, hib, hgd, hge, hgi, hgw, hgl, hgc]

/-- Witness for C9: on a concrete engine whose primitives leave the state
alone, the identity projection is preserved across a full invocation. -/
theorem guest_structures_unchanged_witness :
    PreservesProj rtStOk (fun s => s) ∧
    (fun s => s) (call_callback_by_name_st rtStOk 5 1 8192 42).2
      = (fun (s : Nat) => s) 5 :=
  ⟨⟨fun _ _ _ => rfl, fun _ _ _ => rfl, fun _ _ _ _ _ => rfl,
    fun _ _ _ _ _ => rfl, fun _ _ => rfl, fun _ _ => rfl⟩,
   guest_structures_unchanged rtStOk (fun s => s)
     ⟨fun _ _ _ => rfl, fun _ _ _ => rfl, fun _ _ _ _ _ => rfl,
      fun _ _ _ _ _ => rfl, fun _ _ => rfl, fun _ _ => rfl⟩ 1 8192 42 5⟩

end Callback
